import Mathlib

/-
Shallow embedding of the Bayesian forecasting engine of
src/models/epidemiology/bayesian_model.py (class BayesianEpidemiologicalModel).

Conventions of the embedding:
* Python float arithmetic is idealised as exact rational arithmetic (the
  trajectory, posterior-mean and factor computations), and as real arithmetic
  where a square root occurs (the numpy standard deviation feeding the
  confidence interval).  Float literals such as 1.1, 0.05, 0.2 become the exact
  rationals 11/10, 1/20, 1/5.
* Python dictionaries read with d.get(key, default) become structures with one
  Option field per key that the source reads; Option.getD mirrors the default.
* Python runtime faults become explicit error values of type PyErr: dividing by
  zero raises ZeroDivisionError, subscripting a scalar raises TypeError, and an
  out-of-range list index raises IndexError.  Fallible computations return
  Except PyErr.
* The external library calls np.mean, np.std and scipy stats.t.interval are
  modelled mathematically: np.mean is the arithmetic mean, np.std is the
  population (ddof = 0) standard deviation, and stats.t.interval with scalar
  loc and scale returns the pair (loc - q * scale, loc + q * scale) where
  q = t.ppf((1 + confidence) / 2, df) is the upper-tail Student t quantile.
  scipy validates its scale argument (scale > 0); when the scale is 0, as for
  a constant trajectory, it returns the pair (nan, nan).  Floats are therefore
  a real number or nan (type PyFloat), and comparisons involving nan are
  false, as in IEEE arithmetic.
  The quantile function itself is not closed form, so it is a parameter
  (tPpf : confidence -> df -> real) of every definition that uses it; facts the
  claims need about it (for example q >= 0 at confidence 0.95) appear as
  hypotheses.
* Python list subscripting with a possibly negative index is modelled on a
  small universe PyVal of scalars and lists, so that the fault behaviour of
  subscripting is derived from the shape of the value, not assumed.
-/

/-- Python runtime faults that the modelled code can raise. -/
inductive PyErr where
  | zeroDivisionError : PyErr
  | typeError : PyErr
  | indexError : PyErr
deriving DecidableEq, Repr

/-- Python float scalars as far as the modelled code manipulates them: a
real number, or the IEEE nan that scipy stats.t.interval yields when its
scale argument fails the scale > 0 domain check. -/
inductive PyFloat where
  | val : ℝ → PyFloat
  | nan : PyFloat

/-- Comparison of Python float scalars: any comparison involving nan is
false, as in IEEE arithmetic. -/
def PyFloat.le : PyFloat → PyFloat → Prop
  | PyFloat.val x, PyFloat.val y => x ≤ y
  | _, _ => False

/-- Python values as far as the modelled code manipulates them: float
scalars and lists. -/
inductive PyVal where
  | num : PyFloat → PyVal
  | list : List PyVal → PyVal

/-- Python subscript v[i] with negative-index wraparound: subscripting a
scalar raises TypeError, an out-of-range index raises IndexError. -/
def pyGetItem : PyVal → ℤ → Except PyErr PyVal
  | PyVal.num _, _ => Except.error PyErr.typeError
  | PyVal.list xs, i =>
      let j : ℤ := if i < 0 then i + xs.length else i
      if h : 0 ≤ j ∧ j.toNat < xs.length then Except.ok (xs.get ⟨j.toNat, h.2⟩)
      else Except.error PyErr.indexError

/-- Prior distribution parameters: a mean and a standard deviation
(one entry of self.prior_params). -/
structure PriorSpec where
  mean : ℚ
  std : ℚ
deriving DecidableEq

/-- The dictionary self.prior_params with its three fixed keys. -/
structure PriorParams where
  market_size : PriorSpec
  patient_share : PriorSpec
  revenue : PriorSpec
deriving DecidableEq

/-- Default priors installed by the constructor when prior_params is None. -/
def defaultPriorParams : PriorParams :=
  ⟨⟨1000000, 500000⟩, ⟨1/5, 1/10⟩, ⟨100000000, 50000000⟩⟩

/-- Evidence dictionary market_data; the source reads keys market_trend and
market_share. -/
structure MarketData where
  market_trend : Option ℚ
  market_share : Option ℚ

/-- Evidence dictionary epi_data; the source reads keys prevalence and
incidence. -/
structure EpiData where
  prevalence : Option ℚ
  incidence : Option ℚ

/-- Evidence dictionary fda_data; the source reads key approval_status. -/
structure FdaData where
  approval_status : Option String

/-- Nested dictionary competitor_analysis; the source reads keys new_entrants
and market_exits. -/
structure CompetitorAnalysis where
  new_entrants : Option ℚ
  market_exits : Option ℚ

/-- Evidence dictionary ai_analysis; the source reads keys competitor_analysis
and treatment_preference. -/
structure AiAnalysis where
  competitor_analysis : Option CompetitorAnalysis
  treatment_preference : Option ℚ

/-- Evidence dictionary pricing_data; the source reads keys price_per_patient,
reimbursement_rate and price_inflation. -/
structure PricingData where
  price_per_patient : Option ℚ
  reimbursement_rate : Option ℚ
  price_inflation : Option ℚ

/-- String literal used by the source for the approved branch. -/
def approvedStatus : String := "approved"

/-- String literal used by the source as the approval-status default. -/
def pendingStatus : String := "pending"

/-- Source method _calculate_posterior_mean: precision-weighted fusion of the
prior and the likelihood.  Squaring a zero standard deviation makes the Python
source divide by zero, which is the ZeroDivisionError branch here. -/
def calculate_posterior_mean (prior_mean prior_std likelihood_mean likelihood_std : ℚ) :
    Except PyErr ℚ :=
  if prior_std ^ 2 = 0 then Except.error PyErr.zeroDivisionError
  else if likelihood_std ^ 2 = 0 then Except.error PyErr.zeroDivisionError
  else
    let prior_precision := 1 / prior_std ^ 2
    let likelihood_precision := 1 / likelihood_std ^ 2
    let posterior_precision := prior_precision + likelihood_precision
    Except.ok ((prior_mean * prior_precision + likelihood_mean * likelihood_precision)
      / posterior_precision)

/-- Helper: with both standard deviations nonzero the fusion succeeds and
returns the closed-form precision-weighted average. -/
theorem calculate_posterior_mean_eq (μ0 σ0 μ1 σ1 : ℚ) (h0 : σ0 ≠ 0) (h1 : σ1 ≠ 0) :
    calculate_posterior_mean μ0 σ0 μ1 σ1 =
      Except.ok ((μ0 * (1 / σ0 ^ 2) + μ1 * (1 / σ1 ^ 2)) / (1 / σ0 ^ 2 + 1 / σ1 ^ 2)) := by
  unfold calculate_posterior_mean
  rw [if_neg (pow_ne_zero 2 h0), if_neg (pow_ne_zero 2 h1)]

/-- Model of np.mean on a list of floats: the arithmetic mean. -/
def np_mean (xs : List ℚ) : ℚ := xs.sum / xs.length

/-- Model of the variance underlying np.std with its default ddof = 0: the
mean of the squared deviations (population variance, divisor n). -/
def np_variance (xs : List ℚ) : ℚ :=
  (xs.map (fun x => (x - np_mean xs) ^ 2)).sum / xs.length

/-- Model of np.std (default ddof = 0): square root of the population
variance. -/
noncomputable def np_std (xs : List ℚ) : ℝ := Real.sqrt (np_variance xs : ℝ)

/-- Model of scipy stats.t.interval(confidence, df, loc, scale) with scalar
loc and scale.  scipy validates the scale (its domain check requires
scale > 0) and returns the pair (nan, nan) when the check fails; otherwise
the Student t distribution is symmetric, so the interval is
(loc - q * scale, loc + q * scale) with q = tPpf confidence df standing for
t.ppf((1 + confidence) / 2, df). -/
noncomputable def t_interval (tPpf : ℚ → ℕ → ℝ) (confidence : ℚ) (df : ℕ)
    (loc scale : ℝ) : PyFloat × PyFloat :=
  if 0 < scale then
    (PyFloat.val (loc - tPpf confidence df * scale),
      PyFloat.val (loc + tPpf confidence df * scale))
  else (PyFloat.nan, PyFloat.nan)

/-- Source method _calculate_confidence_intervals: population standard
deviation of the trajectory, then the Student t interval with
len(forecast) - 1 degrees of freedom centred at the trajectory mean, with the
standard deviation itself as the scale.  Returns the two scalars ci[0], ci[1].
The source gives confidence the default value 0.95; every call site uses that
default, which callers here pass explicitly. -/
noncomputable def calculate_confidence_intervals (tPpf : ℚ → ℕ → ℝ)
    (forecast : List ℚ) (confidence : ℚ) : PyFloat × PyFloat :=
  t_interval tPpf confidence (forecast.length - 1) (np_mean forecast : ℝ) (np_std forecast)

/-- Modelled from the spec: the shared confidence-interval helper exactly as
the spec words it, with the SAMPLE standard deviation (divisor n - 1) of the
trajectory, the Student t interval with (length - 1) degrees of freedom, and
the trajectory sample mean as the centre.  Written independently of the
source-derived definition above, for comparison with it. -/
noncomputable def spec_ci_sample_std (tPpf : ℚ → ℕ → ℝ)
    (trajectory : List ℚ) (confidence : ℚ) : PyFloat × PyFloat :=
  let n := trajectory.length
  let mean : ℚ := trajectory.sum / n
  let sample_var : ℚ := (trajectory.map (fun x => (x - mean) ^ 2)).sum / ((n : ℚ) - 1)
  let s : ℝ := Real.sqrt (sample_var : ℝ)
  if 0 < s then
    (PyFloat.val ((mean : ℝ) - tPpf confidence (n - 1) * s),
      PyFloat.val ((mean : ℝ) + tPpf confidence (n - 1) * s))
  else (PyFloat.nan, PyFloat.nan)

/-- Modelled from the spec as amended: identical to spec_ci_sample_std except
that the standard deviation is the POPULATION one (divisor n, matching the
np.std default the source actually uses). -/
noncomputable def spec_ci_population_std (tPpf : ℚ → ℕ → ℝ)
    (trajectory : List ℚ) (confidence : ℚ) : PyFloat × PyFloat :=
  let n := trajectory.length
  let mean : ℚ := trajectory.sum / n
  let pop_var : ℚ := (trajectory.map (fun x => (x - mean) ^ 2)).sum / (n : ℚ)
  let s : ℝ := Real.sqrt (pop_var : ℝ)
  if 0 < s then
    (PyFloat.val ((mean : ℝ) - tPpf confidence (n - 1) * s),
      PyFloat.val ((mean : ℝ) + tPpf confidence (n - 1) * s))
  else (PyFloat.nan, PyFloat.nan)

/-- Line 171 of the source: likelihood_mean = prevalence * incidence * 1000,
with both fields defaulting to 0. -/
def market_size_likelihood_mean (epi_data : EpiData) : ℚ :=
  epi_data.prevalence.getD 0 * epi_data.incidence.getD 0 * 1000

/-- Line 172 of the source: likelihood_std = market_trend * 100000, with
market_trend defaulting to 0. -/
def market_size_likelihood_std (market_data : MarketData) : ℚ :=
  market_data.market_trend.getD 0 * 100000

/-- Posterior-mean step of forecast_market_size: fuse the market_size prior
with the evidence-derived likelihood. -/
def market_size_posterior_mean (priors : PriorParams)
    (market_data : MarketData) (epi_data : EpiData) : Except PyErr ℚ :=
  calculate_posterior_mean priors.market_size.mean priors.market_size.std
    (market_size_likelihood_mean epi_data) (market_size_likelihood_std market_data)

/-- Trajectory loop of forecast_market_size: growth factor 1.1 when the
approval status equals the string approved, 1.05 otherwise, compounded by
year over range(forecast_horizon). -/
def market_size_trajectory (posterior_mean : ℚ) (approval_status : String)
    (forecast_horizon : ℕ) : List ℚ :=
  (List.range forecast_horizon).map (fun year =>
    let growth_factor : ℚ := if approval_status = approvedStatus then 11/10 else 21/20
    posterior_mean * growth_factor ^ year)

/-- View of a float list as a Python value, for the subscripting model. -/
def toPyList (xs : List ℚ) : PyVal :=
  PyVal.list (xs.map (fun q => PyVal.num (PyFloat.val (Rat.cast q))))

/-- Return dictionary of forecast_market_size. -/
structure MarketSizeResult where
  market_size : PyVal
  confidence_interval : List PyVal

/-- Source method forecast_market_size: extract evidence with defaults, fuse
into a posterior mean, build the compounded trajectory, compute the
confidence-interval pair, then assemble the result dictionary.  The assembly
subscripts forecast with -1 and then subscripts each scalar interval bound
with -1, exactly as the source return statement does. -/
noncomputable def forecast_market_size (priors : PriorParams) (tPpf : ℚ → ℕ → ℝ)
    (market_data : MarketData) (epi_data : EpiData) (fda_data : FdaData)
    (forecast_horizon : ℕ) : Except PyErr MarketSizeResult :=
  market_size_posterior_mean priors market_data epi_data >>= fun posterior_mean =>
    let approval_status := fda_data.approval_status.getD pendingStatus
    let forecast := market_size_trajectory posterior_mean approval_status forecast_horizon
    let ci := calculate_confidence_intervals tPpf forecast (95/100)
    pyGetItem (toPyList forecast) (-1) >>= fun ms =>
      pyGetItem (PyVal.num ci.1) (-1) >>= fun cl =>
        pyGetItem (PyVal.num ci.2) (-1) >>= fun cu =>
          Except.ok ⟨ms, [cl, cu]⟩

/-- Source method _calculate_competitor_factor: starts from 1.0, scaled down
by 10 percent per new entrant when new_entrants > 0 and up by 15 percent per
market exit when market_exits > 0.  The year argument is accepted but never
read, exactly as in the source. -/
def calculate_competitor_factor (competitor_analysis : CompetitorAnalysis)
    (year : ℕ) : ℚ :=
  let new_entrants := competitor_analysis.new_entrants.getD 0
  let market_exits := competitor_analysis.market_exits.getD 0
  let impact : ℚ := 1
  let impact := if 0 < new_entrants then impact * (1 - 1/10 * new_entrants) else impact
  let impact := if 0 < market_exits then impact * (1 + 3/20 * market_exits) else impact
  impact

/-- Posterior-mean step of forecast_patient_share: likelihood mean is
market_share * treatment_preference, likelihood standard deviation is the
fixed 0.1. -/
def patient_share_posterior_mean (priors : PriorParams)
    (market_data : MarketData) (ai_analysis : AiAnalysis) : Except PyErr ℚ :=
  calculate_posterior_mean priors.patient_share.mean priors.patient_share.std
    (market_data.market_share.getD 0 * ai_analysis.treatment_preference.getD 0) (1/10)

/-- Trajectory loop of forecast_patient_share: each year value is the
posterior mean times the competitor factor of that year. -/
def patient_share_trajectory (posterior_mean : ℚ)
    (competitor_analysis : CompetitorAnalysis) (forecast_horizon : ℕ) : List ℚ :=
  (List.range forecast_horizon).map (fun year =>
    posterior_mean * calculate_competitor_factor competitor_analysis year)

/-- Return dictionary of forecast_patient_share. -/
structure PatientShareResult where
  patient_share : PyVal
  confidence_interval : List PyVal

/-- Source method forecast_patient_share, assembled like
forecast_market_size, reading competitor_analysis with an empty dictionary as
default. -/
noncomputable def forecast_patient_share (priors : PriorParams) (tPpf : ℚ → ℕ → ℝ)
    (market_data : MarketData) (ai_analysis : AiAnalysis)
    (forecast_horizon : ℕ) : Except PyErr PatientShareResult :=
  patient_share_posterior_mean priors market_data ai_analysis >>= fun posterior_mean =>
    let competitor_analysis := ai_analysis.competitor_analysis.getD ⟨none, none⟩
    let forecast := patient_share_trajectory posterior_mean competitor_analysis forecast_horizon
    let ci := calculate_confidence_intervals tPpf forecast (95/100)
    pyGetItem (toPyList forecast) (-1) >>= fun ps =>
      pyGetItem (PyVal.num ci.1) (-1) >>= fun cl =>
        pyGetItem (PyVal.num ci.2) (-1) >>= fun cu =>
          Except.ok ⟨ps, [cl, cu]⟩

/-- Source method _calculate_price_factor: (1 + price_inflation) ** year with
price_inflation defaulting to 0.05.  The year argument is the loop index. -/
def calculate_price_factor (pricing_data : PricingData) (year : ℕ) : ℚ :=
  let price_inflation := pricing_data.price_inflation.getD (1/20)
  (1 + price_inflation) ^ year

/-- Posterior-mean step of forecast_revenue: likelihood mean is
market_size * patient_share * price_per_patient * reimbursement_rate
(reimbursement_rate defaulting to 0.8), likelihood standard deviation is
market_size * patient_share * price_per_patient * 0.2. -/
def revenue_posterior_mean (priors : PriorParams) (market_size patient_share : ℚ)
    (pricing_data : PricingData) : Except PyErr ℚ :=
  calculate_posterior_mean priors.revenue.mean priors.revenue.std
    (market_size * patient_share * pricing_data.price_per_patient.getD 0 *
      pricing_data.reimbursement_rate.getD (4/5))
    (market_size * patient_share * pricing_data.price_per_patient.getD 0 * (1/5))

/-- Trajectory loop of forecast_revenue: each year value is the posterior
mean times the price factor of that year. -/
def revenue_trajectory (posterior_mean : ℚ) (pricing_data : PricingData)
    (forecast_horizon : ℕ) : List ℚ :=
  (List.range forecast_horizon).map (fun year =>
    posterior_mean * calculate_price_factor pricing_data year)

/-- Return dictionary of forecast_revenue. -/
structure RevenueResult where
  revenue : PyVal
  confidence_interval : List PyVal

/-- Source method forecast_revenue, assembled like the other two forecast
methods. -/
noncomputable def forecast_revenue (priors : PriorParams) (tPpf : ℚ → ℕ → ℝ)
    (market_size patient_share : ℚ) (pricing_data : PricingData)
    (forecast_horizon : ℕ) : Except PyErr RevenueResult :=
  revenue_posterior_mean priors market_size patient_share pricing_data >>= fun posterior_mean =>
    let forecast := revenue_trajectory posterior_mean pricing_data forecast_horizon
    let ci := calculate_confidence_intervals tPpf forecast (95/100)
    pyGetItem (toPyList forecast) (-1) >>= fun rv =>
      pyGetItem (PyVal.num ci.1) (-1) >>= fun cl =>
        pyGetItem (PyVal.num ci.2) (-1) >>= fun cu =>
          Except.ok ⟨rv, [cl, cu]⟩

/-- Helper: bind on a successful Except value. -/
theorem except_bind_ok {α β : Type} (a : α) (f : α → Except PyErr β) :
    (Except.ok a >>= f) = f a := rfl

/-- Helper: bind on a failed Except value. -/
theorem except_bind_err {α β : Type} (e : PyErr) (f : α → Except PyErr β) :
    ((Except.error e : Except PyErr α) >>= f) = Except.error e := rfl

/-- Helper: subscripting a scalar always raises TypeError. -/
theorem pyGetItem_num (x : PyFloat) (i : ℤ) :
    pyGetItem (PyVal.num x) i = Except.error PyErr.typeError := rfl

/-- Helper: subscripting a nonempty list with -1 succeeds. -/
theorem pyGetItem_list_neg_one (xs : List PyVal) (hxs : xs ≠ []) :
    ∃ v, pyGetItem (PyVal.list xs) (-1) = Except.ok v := by
  have hlen : 0 < xs.length := List.length_pos.mpr hxs
  simp only [pyGetItem]
  norm_num
  split
  · exact ⟨_, rfl⟩
  · omega

/-- Helper: the market-size trajectory has one value per year of the
horizon. -/
theorem market_size_trajectory_length (pm : ℚ) (s : String) (h : ℕ) :
    (market_size_trajectory pm s h).length = h := by
  simp [market_size_trajectory]

/-- Helper: last value of a mapped range, for horizons of at least one
year. -/
theorem range_map_getLast (f : ℕ → ℚ) (h : ℕ) (hh : 1 ≤ h) :
    ((List.range h).map f).getLast? = some (f (h - 1)) := by
  cases h with
  | zero => omega
  | succ n =>
    rw [List.range_succ, List.map_append]
    simp

/-- C1: for every prior (mean mu0, std sigma0) and likelihood
(mean mu1, std sigma1) with sigma0 and sigma1 nonzero, the shared helper
calculate_posterior_mean returns exactly the precision-weighted Gaussian
conjugate update (mu0/sigma0^2 + mu1/sigma1^2) / (1/sigma0^2 + 1/sigma1^2). -/
theorem c1_posterior_mean_formula (μ0 σ0 μ1 σ1 : ℚ) (h0 : σ0 ≠ 0) (h1 : σ1 ≠ 0) :
    calculate_posterior_mean μ0 σ0 μ1 σ1 =
      Except.ok ((μ0 * (1 / σ0 ^ 2) + μ1 * (1 / σ1 ^ 2)) / (1 / σ0 ^ 2 + 1 / σ1 ^ 2)) :=
  calculate_posterior_mean_eq μ0 σ0 μ1 σ1 h0 h1

/-- Witness for C1 at the unit-test inputs of the repository. -/
theorem c1_posterior_mean_formula_witness :
    (500000 : ℚ) ≠ 0 ∧ (300000 : ℚ) ≠ 0 ∧
    calculate_posterior_mean 1000000 500000 1200000 300000 =
      Except.ok ((1000000 * (1 / 500000 ^ 2) + 1200000 * (1 / 300000 ^ 2)) /
        (1 / 500000 ^ 2 + 1 / 300000 ^ 2)) :=
  ⟨by norm_num, by norm_num,
    c1_posterior_mean_formula 1000000 500000 1200000 300000 (by norm_num) (by norm_num)⟩

/-- C8: for positive standard deviations the fused posterior mean is a convex
weighted average of the two means, so it lies between their minimum and their
maximum inclusive. -/
theorem c8_posterior_mean_between (μ0 σ0 μ1 σ1 : ℚ) (h0 : 0 < σ0) (h1 : 0 < σ1) :
    ∃ pm, calculate_posterior_mean μ0 σ0 μ1 σ1 = Except.ok pm ∧
      min μ0 μ1 ≤ pm ∧ pm ≤ max μ0 μ1 := by
  have ha : 0 < 1 / σ0 ^ 2 := by positivity
  have hb : 0 < 1 / σ1 ^ 2 := by positivity
  have hab : 0 < 1 / σ0 ^ 2 + 1 / σ1 ^ 2 := by positivity
  refine ⟨_, calculate_posterior_mean_eq μ0 σ0 μ1 σ1 (ne_of_gt h0) (ne_of_gt h1), ?_, ?_⟩
  · rw [le_div_iff₀ hab]
    have hm0 : min μ0 μ1 ≤ μ0 := min_le_left _ _
    have hm1 : min μ0 μ1 ≤ μ1 := min_le_right _ _
    nlinarith
  · rw [div_le_iff₀ hab]
    have hm0 : μ0 ≤ max μ0 μ1 := le_max_left _ _
    have hm1 : μ1 ≤ max μ0 μ1 := le_max_right _ _
    nlinarith

/-- Witness for C8 at prior mean 0, likelihood mean 10, both standard
deviations 1. -/
theorem c8_posterior_mean_between_witness :
    (0 : ℚ) < 1 ∧
    (∃ pm, calculate_posterior_mean 0 1 10 1 = Except.ok pm ∧
      min (0 : ℚ) 10 ≤ pm ∧ pm ≤ max (0 : ℚ) 10) :=
  ⟨by norm_num, c8_posterior_mean_between 0 1 10 1 (by norm_num) (by norm_num)⟩

/-- C6: the price factor is (1 + price_inflation) ^ year with the inflation
defaulting to 0.05, and it compounds across years: the factor at year 2 is
the square of the factor at year 1. -/
theorem c6_price_factor_compounds (pricing_data : PricingData) (year : ℕ) :
    calculate_price_factor pricing_data year =
      (1 + pricing_data.price_inflation.getD (1/20)) ^ year ∧
    calculate_price_factor pricing_data 2 = (calculate_price_factor pricing_data 1) ^ 2 := by
  constructor
  · rfl
  · show (1 + pricing_data.price_inflation.getD (1/20)) ^ 2 =
      ((1 + pricing_data.price_inflation.getD (1/20)) ^ 1) ^ 2
    rw [pow_one]

/-- C5: the competitor factor ignores its year argument, so the patient-share
trajectory is flat: every year value equals the posterior mean times the
factor of year zero, with no per-year compounding. -/
theorem c5_competitor_factor_year_independent :
    (∀ (ca : CompetitorAnalysis) (y1 y2 : ℕ),
      calculate_competitor_factor ca y1 = calculate_competitor_factor ca y2) ∧
    (∀ (pm : ℚ) (ca : CompetitorAnalysis) (h i : ℕ)
      (hi : i < (patient_share_trajectory pm ca h).length),
      (patient_share_trajectory pm ca h).get ⟨i, hi⟩ =
        pm * calculate_competitor_factor ca 0) := by
  constructor
  · intro ca y1 y2
    rfl
  · intro pm ca h i hi
    simp only [patient_share_trajectory, List.get_eq_getElem, List.getElem_map,
      List.getElem_range]
    rfl

/-- Witness for C5: a five-year horizon with two new entrants and one market
exit; the value of year 3 equals the posterior mean times the year-0
factor. -/
theorem c5_competitor_factor_year_independent_witness :
    3 < (patient_share_trajectory (1/5) ⟨some 2, some 1⟩ 5).length ∧
    calculate_competitor_factor ⟨some 2, some 1⟩ 1 =
      calculate_competitor_factor ⟨some 2, some 1⟩ 7 ∧
    (patient_share_trajectory (1/5) ⟨some 2, some 1⟩ 5).get
        ⟨3, by simp [patient_share_trajectory]⟩ =
      (1/5) * calculate_competitor_factor ⟨some 2, some 1⟩ 0 := by
  refine ⟨by simp [patient_share_trajectory], ?_, ?_⟩
  · exact c5_competitor_factor_year_independent.1 ⟨some 2, some 1⟩ 1 7
  · exact c5_competitor_factor_year_independent.2 (1/5) ⟨some 2, some 1⟩ 5 3
      (by simp [patient_share_trajectory])

/-- Concrete stand-in for the scipy Student t quantile function, used only in
closed statements; it maps every confidence and degrees-of-freedom pair to
2.7764 (the value of t.ppf(0.975, 4) to four places).  The theorems applied
at it hold for every quantile function, so the exact value is immaterial. -/
noncomputable def tP0 : ℚ → ℕ → ℝ := fun _ _ => 27764 / 10000

/-- Helper: subscripting a nonempty float list with -1 succeeds. -/
theorem toPyList_neg_one (xs : List ℚ) (hxs : xs ≠ []) :
    ∃ v, pyGetItem (toPyList xs) (-1) = Except.ok v := by
  unfold toPyList
  apply pyGetItem_list_neg_one
  simp only [ne_eq, List.map_eq_nil_iff]
  exact hxs

/-- Helper: once the fusion step of forecast_market_size succeeds and the
horizon is at least one year, the result assembly subscripts the scalar
interval bound ci[0] with -1 and the call raises TypeError. -/
theorem forecast_market_size_type_fault (priors : PriorParams) (tPpf : ℚ → ℕ → ℝ)
    (market_data : MarketData) (epi_data : EpiData) (fda_data : FdaData)
    (horizon : ℕ) (pm : ℚ)
    (hpm : market_size_posterior_mean priors market_data epi_data = Except.ok pm)
    (hh : 1 ≤ horizon) :
    forecast_market_size priors tPpf market_data epi_data fda_data horizon =
      Except.error PyErr.typeError := by
  simp only [forecast_market_size, hpm, except_bind_ok]
  obtain ⟨v, hv⟩ := toPyList_neg_one
    (market_size_trajectory pm (fda_data.approval_status.getD pendingStatus) horizon)
    (by intro hnil
        have hlen := congrArg List.length hnil
        simp only [market_size_trajectory, List.length_map, List.length_range, List.length_nil] at hlen
        omega)
  rw [hv]
  simp only [except_bind_ok, pyGetItem_num, except_bind_err]

/-- Helper: the same assembly fault for forecast_patient_share. -/
theorem forecast_patient_share_type_fault (priors : PriorParams) (tPpf : ℚ → ℕ → ℝ)
    (market_data : MarketData) (ai_analysis : AiAnalysis) (horizon : ℕ) (pm : ℚ)
    (hpm : patient_share_posterior_mean priors market_data ai_analysis = Except.ok pm)
    (hh : 1 ≤ horizon) :
    forecast_patient_share priors tPpf market_data ai_analysis horizon =
      Except.error PyErr.typeError := by
  simp only [forecast_patient_share, hpm, except_bind_ok]
  obtain ⟨v, hv⟩ := toPyList_neg_one
    (patient_share_trajectory pm (ai_analysis.competitor_analysis.getD ⟨none, none⟩)
        horizon)
    (by intro hnil
        have hlen := congrArg List.length hnil
        simp only [patient_share_trajectory, List.length_map, List.length_range, List.length_nil] at hlen
        omega)
  rw [hv]
  simp only [except_bind_ok, pyGetItem_num, except_bind_err]

/-- Helper: the same assembly fault for forecast_revenue. -/
theorem forecast_revenue_type_fault (priors : PriorParams) (tPpf : ℚ → ℕ → ℝ)
    (ms ps : ℚ) (pricing_data : PricingData) (horizon : ℕ) (pm : ℚ)
    (hpm : revenue_posterior_mean priors ms ps pricing_data = Except.ok pm)
    (hh : 1 ≤ horizon) :
    forecast_revenue priors tPpf ms ps pricing_data horizon =
      Except.error PyErr.typeError := by
  simp only [forecast_revenue, hpm, except_bind_ok]
  obtain ⟨v, hv⟩ := toPyList_neg_one
    (revenue_trajectory pm pricing_data horizon)
    (by intro hnil
        have hlen := congrArg List.length hnil
        simp only [revenue_trajectory, List.length_map, List.length_range, List.length_nil] at hlen
        omega)
  rw [hv]
  simp only [except_bind_ok, pyGetItem_num, except_bind_err]

/-- C3: whenever the fusion succeeds (nonzero prior and likelihood standard
deviations) and the horizon is at least one, every one of the three forecast
operations raises TypeError from subscripting the scalar confidence-interval
bounds with -1, so no invocation returns a result normally. -/
theorem c3_forecasts_raise_type_fault (priors : PriorParams) (tPpf : ℚ → ℕ → ℝ)
    (market_data : MarketData) (epi_data : EpiData) (fda_data : FdaData)
    (ai_analysis : AiAnalysis) (pricing_data : PricingData)
    (ms ps : ℚ) (horizon : ℕ) (hh : 1 ≤ horizon)
    (hm0 : priors.market_size.std ≠ 0)
    (hm1 : market_size_likelihood_std market_data ≠ 0)
    (hp0 : priors.patient_share.std ≠ 0)
    (hr0 : priors.revenue.std ≠ 0)
    (hr1 : ms * ps * pricing_data.price_per_patient.getD 0 ≠ 0) :
    forecast_market_size priors tPpf market_data epi_data fda_data horizon =
      Except.error PyErr.typeError ∧
    forecast_patient_share priors tPpf market_data ai_analysis horizon =
      Except.error PyErr.typeError ∧
    forecast_revenue priors tPpf ms ps pricing_data horizon =
      Except.error PyErr.typeError := by
  refine ⟨?_, ?_, ?_⟩
  · exact forecast_market_size_type_fault priors tPpf market_data epi_data fda_data horizon _
      (calculate_posterior_mean_eq _ _ _ _ hm0 hm1) hh
  · exact forecast_patient_share_type_fault priors tPpf market_data ai_analysis horizon _
      (calculate_posterior_mean_eq _ _ _ _ hp0 (by norm_num)) hh
  · exact forecast_revenue_type_fault priors tPpf ms ps pricing_data horizon _
      (calculate_posterior_mean_eq _ _ _ _ hr0 (mul_ne_zero hr1 (by norm_num))) hh

/-- Witness for C3 at the fixture values of the repository unit tests and a
five-year horizon. -/
theorem c3_forecasts_raise_type_fault_witness :
    ((1 : ℕ) ≤ 5 ∧ defaultPriorParams.market_size.std ≠ 0 ∧
      market_size_likelihood_std ⟨some (1/20), some (1/5)⟩ ≠ 0) ∧
    forecast_market_size defaultPriorParams tP0 ⟨some (1/20), some (1/5)⟩
      ⟨some (1/100), some (1/1000)⟩ ⟨some approvedStatus⟩ 5 =
      Except.error PyErr.typeError ∧
    forecast_patient_share defaultPriorParams tP0 ⟨some (1/20), some (1/5)⟩
      ⟨some ⟨some 2, some 1⟩, some (7/10)⟩ 5 = Except.error PyErr.typeError ∧
    forecast_revenue defaultPriorParams tP0 1000000 (1/5)
      ⟨some 1000, some (4/5), none⟩ 5 = Except.error PyErr.typeError := by
  refine ⟨⟨by norm_num, by norm_num [defaultPriorParams],
    by norm_num [market_size_likelihood_std]⟩, ?_⟩
  exact c3_forecasts_raise_type_fault defaultPriorParams tP0 ⟨some (1/20), some (1/5)⟩
    ⟨some (1/100), some (1/1000)⟩ ⟨some approvedStatus⟩ ⟨some ⟨some 2, some 1⟩, some (7/10)⟩
    ⟨some 1000, some (4/5), none⟩ 1000000 (1/5) 5
    (by norm_num) (by norm_num [defaultPriorParams])
    (by norm_num [market_size_likelihood_std]) (by norm_num [defaultPriorParams])
    (by norm_num [defaultPriorParams]) (by norm_num)

/-- C2: calling forecast_market_size with all three evidence dictionaries
empty makes market_trend default to 0, so likelihood_std is 0 and the fusion
divides by zero: the call raises ZeroDivisionError instead of returning a
result. -/
theorem c2_empty_evidence_zero_division :
    forecast_market_size defaultPriorParams tP0 ⟨none, none⟩ ⟨none, none⟩ ⟨none⟩ 5 =
      Except.error PyErr.zeroDivisionError := by
  have h : market_size_posterior_mean defaultPriorParams ⟨none, none⟩ ⟨none, none⟩ =
      Except.error PyErr.zeroDivisionError := by
    unfold market_size_posterior_mean calculate_posterior_mean
      market_size_likelihood_mean market_size_likelihood_std defaultPriorParams
    norm_num
  simp only [forecast_market_size, h, except_bind_err]

/-- Helper: in the concrete scenario of the spec (default priors, prevalence
0.01, incidence 0.001, market_trend 0.05) the fused posterior mean is exactly
100: the likelihood (mean 0.01, std 5000) carries 10000 times the precision
of the prior, and (1000000 + 100) / 10001 = 100. -/
theorem scenario_posterior_mean :
    market_size_posterior_mean defaultPriorParams ⟨some (1/20), none⟩
      ⟨some (1/100), some (1/1000)⟩ = Except.ok 100 := by
  unfold market_size_posterior_mean calculate_posterior_mean
    market_size_likelihood_mean market_size_likelihood_std defaultPriorParams
  norm_num

/-- Counterexample for C4: in the concrete scenario the call does not return
the market_size at all; it raises TypeError while assembling the confidence
interval, so no value is returned. -/
theorem c4_never_returns_cex :
    forecast_market_size defaultPriorParams tP0 ⟨some (1/20), none⟩
      ⟨some (1/100), some (1/1000)⟩ ⟨some approvedStatus⟩ 5 =
      Except.error PyErr.typeError :=
  forecast_market_size_type_fault defaultPriorParams tP0 ⟨some (1/20), none⟩
    ⟨some (1/100), some (1/1000)⟩ ⟨some approvedStatus⟩ 5 100
    scenario_posterior_mean (by norm_num)

/-- C4 as amended: in the concrete scenario the engine computes
likelihood_mean 0.01 and likelihood_std 5000, fuses them to the posterior
mean 100, and the final (year 4) trajectory value equals
posterior_mean * 1.1 ^ 4; the call then raises TypeError while assembling
the confidence interval, so this value is computed but never returned. -/
theorem c4_scenario_amended :
    market_size_likelihood_mean ⟨some (1/100), some (1/1000)⟩ = 1/100 ∧
    market_size_likelihood_std ⟨some (1/20), none⟩ = 5000 ∧
    market_size_posterior_mean defaultPriorParams ⟨some (1/20), none⟩
      ⟨some (1/100), some (1/1000)⟩ = Except.ok 100 ∧
    (market_size_trajectory 100 approvedStatus 5).getLast? =
      some (100 * (11/10 : ℚ) ^ 4) := by
  refine ⟨by norm_num [market_size_likelihood_mean],
    by norm_num [market_size_likelihood_std], scenario_posterior_mean, ?_⟩
  unfold market_size_trajectory
  rw [range_map_getLast _ 5 (by norm_num)]
  norm_num

/-- Counterexample for C7: the strict approved-over-pending comparison of
final-year values fails at two concrete inputs.  First, at horizon 1 the
final-year value is the posterior mean itself for both approval states (the
growth factor enters as its zeroth power), so the values are equal.  Second,
at horizon 2, evidence with a negative prevalence fuses (under the default
priors) to the negative posterior mean -100, where the approved final value
-110 is strictly SMALLER than the pending final value -105. -/
theorem c7_strictness_cex :
    (market_size_posterior_mean defaultPriorParams ⟨some (1/20), none⟩
        ⟨some (1/100), some (1/1000)⟩ = Except.ok 100 ∧
      (market_size_trajectory 100 approvedStatus 1).getLast? =
        (market_size_trajectory 100 pendingStatus 1).getLast?) ∧
    (market_size_posterior_mean defaultPriorParams ⟨some (1/20), none⟩
        ⟨some (-20001/100000), some 1⟩ = Except.ok (-100) ∧
      (market_size_trajectory (-100) approvedStatus 2).getLast? = some (-110) ∧
      (market_size_trajectory (-100) pendingStatus 2).getLast? = some (-105)) := by
  refine ⟨⟨scenario_posterior_mean, ?_⟩, ?_, ?_, ?_⟩
  · unfold market_size_trajectory
    rw [range_map_getLast _ 1 (by norm_num), range_map_getLast _ 1 (by norm_num)]
    norm_num
  · unfold market_size_posterior_mean calculate_posterior_mean
      market_size_likelihood_mean market_size_likelihood_std defaultPriorParams
    norm_num
  · unfold market_size_trajectory
    rw [range_map_getLast _ 2 (by norm_num)]
    norm_num
  · unfold market_size_trajectory
    rw [range_map_getLast _ 2 (by norm_num)]
    have hne : pendingStatus ≠ approvedStatus := by decide
    simp only [if_neg hne]
    norm_num

/-- C7 as amended: for horizons of at least two years and a positive fused
posterior mean, the approved growth factor 1.10 yields a strictly larger
final-year trajectory value than the pending factor 1.05; at horizon 1 the
two coincide. -/
theorem c7_approved_beats_pending_amended (pm : ℚ) (horizon : ℕ)
    (hh : 2 ≤ horizon) (hpm : 0 < pm) :
    ∃ a p, (market_size_trajectory pm approvedStatus horizon).getLast? = some a ∧
      (market_size_trajectory pm pendingStatus horizon).getLast? = some p ∧
      p < a := by
  refine ⟨pm * (11/10) ^ (horizon - 1), pm * (21/20) ^ (horizon - 1), ?_, ?_, ?_⟩
  · unfold market_size_trajectory
    rw [range_map_getLast _ horizon (by omega)]
    norm_num
  · unfold market_size_trajectory
    rw [range_map_getLast _ horizon (by omega)]
    have hne : pendingStatus ≠ approvedStatus := by decide
    simp [hne]
  · have hlt : (21/20 : ℚ) ^ (horizon - 1) < (11/10) ^ (horizon - 1) :=
      pow_lt_pow_left₀ (by norm_num) (by norm_num) (by omega)
    exact mul_lt_mul_of_pos_left hlt hpm

/-- Witness for C7 as amended, at posterior mean 100 and horizon 5. -/
theorem c7_approved_beats_pending_amended_witness :
    ((2 : ℕ) ≤ 5 ∧ (0 : ℚ) < 100) ∧
    (∃ a p, (market_size_trajectory 100 approvedStatus 5).getLast? = some a ∧
      (market_size_trajectory 100 pendingStatus 5).getLast? = some p ∧
      p < a) :=
  ⟨⟨by norm_num, by norm_num⟩,
    c7_approved_beats_pending_amended 100 5 (by norm_num) (by norm_num)⟩

/-- Concrete stand-in for the scipy Student t quantile at one degree of
freedom: t.ppf(0.975, 1) is 12.7062 to four places.  As with tP0, the
surrounding statements hold for every nonzero quantile value. -/
noncomputable def tP1 : ℚ → ℕ → ℝ := fun _ _ => 127062 / 10000

/-- Helper: the square root of two is strictly larger than one. -/
theorem one_lt_sqrt_two : (1 : ℝ) < Real.sqrt 2 := by
  have h := Real.sq_sqrt (by norm_num : (0 : ℝ) ≤ 2)
  nlinarith [Real.sqrt_nonneg 2]

/-- Counterexample for C10: on the constant trajectory 5, 5 (length 2) the
population standard deviation is exactly 0, stats.t.interval rejects the
zero scale and yields nan bounds, and a nan bound compares false against
everything, so neither lower <= mean nor lower <= upper holds there. -/
theorem c10_constant_trajectory_cex :
    calculate_confidence_intervals tP0 [5, 5] (95/100) = (PyFloat.nan, PyFloat.nan) ∧
    ¬ PyFloat.le (calculate_confidence_intervals tP0 [5, 5] (95/100)).1
        (PyFloat.val (np_mean [5, 5] : ℝ)) ∧
    ¬ PyFloat.le (calculate_confidence_intervals tP0 [5, 5] (95/100)).1
        (calculate_confidence_intervals tP0 [5, 5] (95/100)).2 := by
  have hvar : np_variance [5, 5] = 0 := by norm_num [np_variance, np_mean]
  have hstd : np_std [5, 5] = 0 := by
    unfold np_std
    rw [hvar]
    simp
  have hci : calculate_confidence_intervals tP0 [5, 5] (95/100) =
      (PyFloat.nan, PyFloat.nan) := by
    unfold calculate_confidence_intervals t_interval
    rw [hstd, if_neg (lt_irrefl 0)]
  refine ⟨hci, ?_, ?_⟩ <;> rw [hci] <;> simp [PyFloat.le]

/-- C10 as amended: for a trajectory of length at least two whose population
variance is nonzero (values not all equal, so the scale handed to
stats.t.interval is positive) and a nonnegative Student t quantile at
confidence 0.95 (which holds for the true scipy quantile at every degrees of
freedom), the returned pair brackets the sample mean of the trajectory and
is ordered. -/
theorem c10_ci_brackets_mean_amended (tPpf : ℚ → ℕ → ℝ) (trajectory : List ℚ)
    (hlen : 2 ≤ trajectory.length)
    (hvar : np_variance trajectory ≠ 0)
    (ht : 0 ≤ tPpf (95/100) (trajectory.length - 1)) :
    PyFloat.le (calculate_confidence_intervals tPpf trajectory (95/100)).1
      (PyFloat.val (np_mean trajectory : ℝ)) ∧
    PyFloat.le (PyFloat.val (np_mean trajectory : ℝ))
      (calculate_confidence_intervals tPpf trajectory (95/100)).2 ∧
    PyFloat.le (calculate_confidence_intervals tPpf trajectory (95/100)).1
      (calculate_confidence_intervals tPpf trajectory (95/100)).2 := by
  have hv0 : 0 ≤ np_variance trajectory := by
    unfold np_variance
    apply div_nonneg
    · apply List.sum_nonneg
      intro x hx
      obtain ⟨y, hy, rfl⟩ := List.mem_map.mp hx
      positivity
    · positivity
  have hvpos : (0 : ℝ) < (np_variance trajectory : ℝ) := by
    exact_mod_cast lt_of_le_of_ne hv0 (Ne.symm hvar)
  have hs : 0 < np_std trajectory := Real.sqrt_pos.mpr hvpos
  have hts : 0 ≤ tPpf (95/100) (trajectory.length - 1) * np_std trajectory :=
    mul_nonneg ht (le_of_lt hs)
  simp only [calculate_confidence_intervals, t_interval, if_pos hs]
  refine ⟨?_, ?_, ?_⟩ <;> simp only [PyFloat.le] <;> linarith

/-- Witness for C10 as amended at the two-year trajectory 0, 2 (variance 1)
and the concrete quantile stand-in tP0. -/
theorem c10_ci_brackets_mean_amended_witness :
    ((2 : ℕ) ≤ ([0, 2] : List ℚ).length ∧ np_variance [0, 2] ≠ 0 ∧
      (0 : ℝ) ≤ tP0 (95/100) (([0, 2] : List ℚ).length - 1)) ∧
    (PyFloat.le (calculate_confidence_intervals tP0 [0, 2] (95/100)).1
        (PyFloat.val (np_mean [0, 2] : ℝ)) ∧
      PyFloat.le (PyFloat.val (np_mean [0, 2] : ℝ))
        (calculate_confidence_intervals tP0 [0, 2] (95/100)).2 ∧
      PyFloat.le (calculate_confidence_intervals tP0 [0, 2] (95/100)).1
        (calculate_confidence_intervals tP0 [0, 2] (95/100)).2) :=
  ⟨⟨by simp, by norm_num [np_variance, np_mean], by norm_num [tP0]⟩,
    c10_ci_brackets_mean_amended tP0 [0, 2] (by simp)
      (by norm_num [np_variance, np_mean]) (by norm_num [tP0])⟩

/-- Counterexample for C9: on the trajectory 0, 2 the source helper and the
spec-described helper built on the SAMPLE standard deviation disagree: the
source uses the np.std default, the population standard deviation 1, while
the sample standard deviation is the square root of 2.  The two interval
pairs differ for every nonzero quantile value; the concrete quantile
stand-in tP1 exhibits it. -/
theorem c9_sample_std_cex :
    calculate_confidence_intervals tP1 [0, 2] (95/100) ≠
      spec_ci_sample_std tP1 [0, 2] (95/100) := by
  have hmean : np_mean [0, 2] = 1 := by norm_num [np_mean]
  have hvar : np_variance [0, 2] = 1 := by norm_num [np_variance, np_mean]
  have hstd : np_std [0, 2] = 1 := by
    unfold np_std
    rw [hvar]
    simp
  have hcode : calculate_confidence_intervals tP1 [0, 2] (95/100) =
      (PyFloat.val (1 - (127062/10000 : ℝ)),
        PyFloat.val (1 + (127062/10000 : ℝ))) := by
    unfold calculate_confidence_intervals t_interval
    rw [hstd, hmean, if_pos (by norm_num : (0 : ℝ) < 1)]
    norm_num [tP1]
  have hspec : spec_ci_sample_std tP1 [0, 2] (95/100) =
      (PyFloat.val (1 - (127062/10000 : ℝ) * Real.sqrt 2),
        PyFloat.val (1 + (127062/10000 : ℝ) * Real.sqrt 2)) := by
    simp only [spec_ci_sample_std, tP1, List.sum_cons, List.sum_nil, List.length_cons,
      List.length_nil]
    norm_num
  intro heq
  rw [hcode, hspec] at heq
  have h2 := congrArg Prod.snd heq
  simp only [PyFloat.val.injEq] at h2
  linarith [one_lt_sqrt_two]

/-- C9 as amended: the source helper equals the spec-described
confidence-interval computation once the standard deviation is taken to be
the POPULATION one (the np.std default, divisor n): a single Student t
interval with (length - 1) degrees of freedom, centred at the sample mean of
the whole trajectory, not per-year bounds. -/
theorem c9_ci_population_std (tPpf : ℚ → ℕ → ℝ) (trajectory : List ℚ)
    (confidence : ℚ) :
    calculate_confidence_intervals tPpf trajectory confidence =
      spec_ci_population_std tPpf trajectory confidence := rfl
